import Mathlib

/-!
Shallow embedding of `zellij-chooser` (`src/main.rs`) and verification of its
specification claims.

The program is a session launcher for the zellij terminal multiplexer.  Its
observable behaviour is modelled here over an explicit world state:

* `World` carries the set of socket files present in the zellij socket
  directory (`ZELLIJ_SOCK_DIR`) and, for each socket path, the behaviour of a
  connection attempt against it (`ConnBehavior`).
* `assert_socket` embeds the liveness probe of the same name.
* `get_sessions` embeds the registry scan of the same name.
* `mainResult` embeds the control flow of `main`, producing a `MainOutcome`.
-/

namespace ZellijChooser

/-- Messages a zellij server can send back to a probing client.  The source
matches on `ServerToClientMsg::Connected`; every other constructor is collapsed
into `other` since the code treats them all alike. -/
inductive ServerMsg : Type
  | connected
  | other
deriving DecidableEq, Repr

/-- Outcome of one `LocalSocketStream::connect` attempt against a socket path
that is present on disk, together with the reply (if any) to the
`ConnStatus` request:
* `reply m` — the connection succeeded and `recv()` returned `m`
  (`none` models the connection closing with no response);
* `refused` — connect failed with `io::ErrorKind::ConnectionRefused`;
* `otherErr` — connect failed with any other error kind. -/
inductive ConnBehavior : Type
  | reply (m : Option ServerMsg)
  | refused
  | otherErr
deriving DecidableEq, Repr

/-- I/O error kinds the program distinguishes (`io::ErrorKind`). -/
inductive ErrKind : Type
  | notFound
  | permissionDenied
  | connectionRefused
  | otherKind
deriving DecidableEq, Repr

/-- The world the program acts on: which socket files exist in
`ZELLIJ_SOCK_DIR`, and how a connection to each existing path behaves. -/
structure World : Type where
  files : List String
  behavior : String → ConnBehavior

/-- `files.any (· == name)`: whether a socket file of this name is on disk. -/
def has_file (files : List String) (name : String) : Bool :=
  files.any (fun q => q == name)

/-- Effect of `fs::remove_file` on the directory listing: the file of this
name is gone afterwards (removing an absent file is a no-op on the listing). -/
def remove_file (files : List String) (name : String) : List String :=
  files.filter (fun q => q != name)

/-- Embedding of `assert_socket` (src/main.rs:98-116).  Connecting to a path
whose file is absent fails with `NotFound`, which is not `ConnectionRefused`,
so it takes the final `Err(_)` branch.  For a present file the probe follows
`World.behavior`:
* reply `Connected` → `true` (live);
* any other reply, or no reply → `false`, world untouched;
* `ConnectionRefused` → `false`, and the socket file is deleted
  (`drop(fs::remove_file(path))`: the deletion result is discarded);
* any other connection error → `false`, world untouched. -/
def assert_socket (w : World) (name : String) : Bool × World :=
  if has_file w.files name then
    match w.behavior name with
    | .reply (some .connected) => (true, w)
    | .reply (some .other) => (false, w)
    | .reply none => (false, w)
    | .refused => (false, ⟨remove_file w.files name, w.behavior⟩)
    | .otherErr => (false, w)
  else
    (false, w)

/-- One entry of `fs::read_dir(ZELLIJ_SOCK_DIR)`: its file name and whether
the file type reported by the filesystem is a socket. -/
structure DirEntry : Type where
  name : String
  isSocket : Bool
deriving DecidableEq, Repr

/-- Result of `fs::read_dir`: either the directory listing or an error kind. -/
inductive ReadDirResult : Type
  | ok (entries : List DirEntry)
  | err (k : ErrKind)

/-- The `files.for_each` loop body of `get_sessions`: an entry's name is
pushed exactly when the file type is a socket **and** `assert_socket`
answers `true` (Rust `&&` short-circuits, so non-sockets are never probed).
The world is threaded through because probes may delete stale sockets. -/
def scan_files : List DirEntry → World → List String × World
  | [], w => ([], w)
  | f :: fs, w =>
    if f.isSocket then
      let r := assert_socket w f.name
      if r.1 then (f.name :: (scan_files fs r.2).1, (scan_files fs r.2).2)
      else scan_files fs r.2
    else
      scan_files fs w

/-- Embedding of `get_sessions` (src/main.rs:80-96): on a successful listing
it runs the probe loop; a `NotFound` enumeration error yields `Ok(vec![])`;
any other enumeration error is surfaced as `Err(kind)`. -/
def get_sessions (dir : ReadDirResult) (w : World) :
    Except ErrKind (List String) × World :=
  match dir with
  | .ok entries =>
    let r := scan_files entries w
    (.ok r.1, r.2)
  | .err k => if k ≠ .notFound then (.error k, w) else (.ok [], w)

/-- Embedding of `try_joining` (src/main.rs:58-77): succeeds iff the requested
name occurs in the session list, otherwise a `NotFound` error. -/
def try_joining (name : String) (sessions : List String) : Except ErrKind Unit :=
  match sessions.find? (fun s => s == name) with
  | some _ => .ok ()
  | none => .error .notFound

/-- Embedding of `spawn` (src/main.rs:118-120): the body is literally
`Ok(())`, whatever the session name. -/
def spawn (_session : String) : Except ErrKind Unit := .ok ()

/-- Embedding of the `println!("({}) :: {}", &stringify!(id), &session)` loop
in `interactive_select` (src/main.rs:156-158): `stringify!(id)` is the
**literal string** `"id"`, not the value of the loop index, so every line
reads `(id) :: name`.  The enumeration index is produced and discarded. -/
def display_lines (sessions : List String) : List String :=
  sessions.enum.map (fun p => "(id) :: " ++ p.2)

/-- The session-listing lines as the spec describes them (section 4.4 /
section 9 of the design): each name shown with its actual zero-based index. -/
def display_lines_spec (sessions : List String) : List String :=
  sessions.enum.map (fun p => "(" ++ toString p.1 ++ ") :: " ++ p.2)

/-- Validation applied to one line of interactive input, from
src/main.rs:160-165: reject the empty string, reject any line containing a
whitespace character (`feed.find(char::is_whitespace)`). -/
def valid_name (s : String) : Bool :=
  !s.isEmpty && !(s.data.any Char.isWhitespace)

/-- The `loop` of `interactive_select` (src/main.rs:155-167) over the
sequence of lines the user will type: skip (re-prompt on) every empty or
whitespace-containing line, return the first valid line verbatim; `none`
models the input ending (a `readline` error propagates out via `?`). -/
def read_name_loop : List String → Option String
  | [] => none
  | feed :: rest =>
    if feed.isEmpty then read_name_loop rest
    else if feed.data.any Char.isWhitespace then read_name_loop rest
    else some feed

/-- Embedding of `interactive_select` (src/main.rs:142-170): display the
candidates, run the read loop, pass the accepted line to `spawn` (a no-op)
and return `Ok(())` — the chosen name itself is **not** returned to the
caller.  `none` models the propagated readline error. -/
def interactive_select (running : List String) (inputs : List String) :
    Option Unit :=
  let _ := display_lines running
  match read_name_loop inputs with
  | none => none
  | some stdin =>
    let _ := spawn stdin
    some ()

/-- Observable final outcome of a run of `main`. -/
inductive MainOutcome : Type
  | fatalExit (msg : String) (code : Int)
  | panicked
  | connect (name : String)
deriving DecidableEq, Repr

/-- Embedding of `exit_zellij_not_found` (src/main.rs:53-56): print the
message and `exit(-1)`. -/
def exit_zellij_not_found : MainOutcome :=
  .fatalExit "Looks like zellij isn't available. Exiting." (-1)

/-- Embedding of the final statement of `main`, `connect(session.unwrap())`:
`Option::unwrap` on `None` panics; otherwise `connect` daemonizes and spawns
`zellij -a <name>`, modelled as the `connect` outcome carrying the name. -/
def connect_step : Option String → MainOutcome
  | none => .panicked
  | some name => .connect name

/-- The names in the environment for which the closure passed to `map` in
`main` (src/main.rs:22-26) **would** call `exit(-1)` if it were ever run:
those containing the substring `ZELLIJ`. -/
def guard_trigger_names (env : List String) : List String :=
  env.filter (fun n => decide (List.IsInfix "ZELLIJ".toList n.toList))

/-- Whether the nested-invocation guard in `main` (src/main.rs:20-26)
actually terminates the process.  The guard builds
`env::vars_os().into_iter().map(|v| ... exit(-1) ...)` and binds it to `_`:
Rust iterator adapters are lazy, the `Map` iterator is dropped without ever
being consumed, so the closure — and the `exit(-1)` inside it — never runs,
for **any** environment.  The guard has no run-time effect. -/
def nested_guard_exits (_env : List String) : Bool :=
  false

/-- The nested-invocation guard as the specification describes it (sections 6
and 9): exit when some environment variable name contains the marker
`ZELLIJ`.  Kept separate from `nested_guard_exits` for comparison. -/
def nested_guard_spec (env : List String) : Bool :=
  env.any (fun n => decide (List.IsInfix "ZELLIJ".toList n.toList))

/-- The tail of `main` after the session list is in hand
(src/main.rs:37-48): with no positional name, run the interactive selector
and discard its result; with a positional name, `try_joining` and on failure
`spawn` (which is infallible, so the `.expect` never fires).  Either way the
run ends in `connect(session.unwrap())`. -/
def main_after_sessions (session : Option String) (running : List String)
    (inputs : List String) : MainOutcome :=
  let _ :=
    match session with
    | none => interactive_select running inputs
    | some name =>
      match try_joining name running with
      | .ok _ => some ()
      | .error _ =>
        let _ := spawn name
        some ()
  connect_step session

/-- Embedding of `main` (src/main.rs:20-51).
`env` is the list of environment variable names; `argv` is the full argument
vector including the program name, so `argv[1]?` is the positional session
name (`env::args().nth(1)`); `dir` is the outcome of reading the socket
directory; `inputs` is the sequence of lines available on the terminal.
The nested-invocation guard contributes nothing (see `nested_guard_exits`).
`main` then matches `get_sessions()`: a non-`NotFound` error is fatal, a
`NotFound` error means an empty session list. -/
def mainResult (env : List String) (argv : List String) (dir : ReadDirResult)
    (w : World) (inputs : List String) : MainOutcome :=
  let _ := guard_trigger_names env
  let _ := nested_guard_exits env
  let session := argv[1]?
  match (get_sessions dir w).1 with
  | .error k => if k ≠ .notFound then exit_zellij_not_found
              else main_after_sessions session [] inputs
  | .ok running => main_after_sessions session running inputs

/-- Whether a probe of `name` against world `w` comes back live: the socket
file exists and the connection replies with the `Connected` acknowledgement. -/
def isConnectedReply : ConnBehavior → Bool
  | .reply (some .connected) => true
  | _ => false

/-- Live = file present and the reply is the `Connected` acknowledgement. -/
def liveIn (w : World) (name : String) : Bool :=
  has_file w.files name && isConnectedReply (w.behavior name)

/-- A concrete world with one stale socket `work` (connection refused). -/
def wStale : World :=
  ⟨["work"], fun _ => .refused⟩

/-- A concrete world where connecting to `work` fails with a generic error. -/
def wErr : World :=
  ⟨["work"], fun _ => .otherErr⟩

theorem has_file_iff (files : List String) (n : String) :
    has_file files n = true ↔ n ∈ files := by
  simp [has_file, List.any_eq_true]

theorem not_mem_remove_file (files : List String) (n : String) :
    n ∉ remove_file files n := by
  simp [remove_file, List.mem_filter]

theorem remove_file_mem (files : List String) (n m : String) (h : m ≠ n) :
    m ∈ remove_file files n ↔ m ∈ files := by
  simp [remove_file, List.mem_filter, h]

theorem has_file_remove_self (files : List String) (n : String) :
    has_file (remove_file files n) n = false := by
  rw [Bool.eq_false_iff]
  intro hc
  exact not_mem_remove_file files n ((has_file_iff _ _).mp hc)

theorem has_file_remove_ne (files : List String) (n m : String) (h : m ≠ n) :
    has_file (remove_file files n) m = has_file files m := by
  by_cases hm : m ∈ files
  · rw [(has_file_iff _ _).mpr hm,
      (has_file_iff _ _).mpr ((remove_file_mem files n m h).mpr hm)]
  · have h1 : has_file files m = false := by
      rw [Bool.eq_false_iff]
      intro hc
      exact hm ((has_file_iff _ _).mp hc)
    have h2 : has_file (remove_file files n) m = false := by
      rw [Bool.eq_false_iff]
      intro hc
      exact hm ((remove_file_mem files n m h).mp ((has_file_iff _ _).mp hc))
    rw [h1, h2]

theorem assert_socket_fst (w : World) (n : String) :
    (assert_socket w n).1 = liveIn w n := by
  rw [assert_socket, liveIn]
  by_cases hf : has_file w.files n = true
  · rw [if_pos hf, hf, Bool.true_and]
    cases hb : w.behavior n with
    | reply m =>
      cases m with
      | none => simp [isConnectedReply]
      | some msg => cases msg <;> simp [isConnectedReply]
    | refused => simp [isConnectedReply]
    | otherErr => simp [isConnectedReply]
  · rw [if_neg hf, Bool.eq_false_iff.mpr hf, Bool.false_and]

theorem assert_socket_snd_behavior (w : World) (n : String) :
    (assert_socket w n).2.behavior = w.behavior := by
  rw [assert_socket]
  by_cases hf : has_file w.files n = true
  · rw [if_pos hf]
    cases hb : w.behavior n with
    | reply m => cases m with
      | none => rfl
      | some msg => cases msg <;> rfl
    | refused => rfl
    | otherErr => rfl
  · rw [if_neg hf]

theorem assert_socket_snd_has_file (w : World) (n m : String) (h : m ≠ n) :
    has_file (assert_socket w n).2.files m = has_file w.files m := by
  rw [assert_socket]
  by_cases hf : has_file w.files n = true
  · rw [if_pos hf]
    cases hb : w.behavior n with
    | reply mm => cases mm with
      | none => rfl
      | some msg => cases msg <;> rfl
    | refused => exact has_file_remove_ne w.files n m h
    | otherErr => rfl
  · rw [if_neg hf]

theorem liveIn_assert_socket (w : World) (n m : String) (h : m ≠ n) :
    liveIn (assert_socket w n).2 m = liveIn w m := by
  rw [liveIn, liveIn, assert_socket_snd_behavior, assert_socket_snd_has_file w n m h]

theorem scan_files_fst (entries : List DirEntry) (w : World)
    (h : (entries.map DirEntry.name).Nodup) :
    (scan_files entries w).1 =
      (entries.filter (fun e => e.isSocket && liveIn w e.name)).map DirEntry.name := by
  induction entries generalizing w with
  | nil => rfl
  | cons f fs ih =>
    rw [List.map_cons, List.nodup_cons] at h
    obtain ⟨hf, hfs⟩ := h
    have hframe : ∀ e ∈ fs,
        (e.isSocket && liveIn (assert_socket w f.name).2 e.name)
          = (e.isSocket && liveIn w e.name) := by
      intro e he
      have hne : e.name ≠ f.name := by
        intro hc
        exact hf (hc ▸ List.mem_map_of_mem DirEntry.name he)
      rw [liveIn_assert_socket _ _ _ hne]
    have hrest : (scan_files fs (assert_socket w f.name).2).1
        = (fs.filter (fun e => e.isSocket && liveIn w e.name)).map DirEntry.name := by
      rw [ih _ hfs, List.filter_congr hframe]
    simp only [scan_files, List.filter_cons]
    by_cases hs : f.isSocket = true
    · rw [if_pos hs]
      by_cases hl : (assert_socket w f.name).1 = true
      · have hp : (f.isSocket && liveIn w f.name) = true := by
          rw [← assert_socket_fst, hl, hs, Bool.true_and]
        rw [if_pos hl, if_pos hp, List.map_cons, hrest]
      · have hlf : liveIn w f.name = false := by
          rw [← assert_socket_fst, Bool.eq_false_iff]
          exact hl
        have hp : (f.isSocket && liveIn w f.name) = false := by
          rw [hlf, Bool.and_false]
        rw [if_neg hl, if_neg (by rw [hp]; exact Bool.false_ne_true), hrest]
    · have hsf : f.isSocket = false := Bool.eq_false_iff.mpr hs
      have hp : (f.isSocket && liveIn w f.name) = false := by
        rw [hsf, Bool.false_and]
      rw [if_neg hs, if_neg (by rw [hp]; exact Bool.false_ne_true), ih w hfs]

/-- A concrete world with one live socket `work`, used in closed theorems. -/
def w0 : World :=
  ⟨["work"], fun _ => .reply (some .connected)⟩

/-- C1: the spec claims that whenever some environment variable name
contains the marker `ZELLIJ`, the program exits with code `-1` at startup
before any session discovery.  The guard in `main` builds the exiting closure
inside a lazy `map` and drops the iterator unconsumed, so it never exits: with
`ZELLIJ_SESSION_NAME` in the environment the marker is matched by the guard
predicate, the spec-side guard demands an exit, yet the run proceeds all the
way to connecting to the requested session. -/
theorem c1_nested_guard_is_inert :
    nested_guard_exits ["ZELLIJ_SESSION_NAME"] = false ∧
    nested_guard_spec ["ZELLIJ_SESSION_NAME"] = true ∧
    guard_trigger_names ["ZELLIJ_SESSION_NAME"] = ["ZELLIJ_SESSION_NAME"] ∧
    mainResult ["ZELLIJ_SESSION_NAME"] ["zellij-chooser", "work"]
      (.ok []) w0 [] = .connect "work" := by
  refine ⟨rfl, by decide, by decide, rfl⟩

/-- C2: when no positional session-name argument is supplied, `main` runs the
interactive selector, discards its result, and then evaluates
`connect(session.unwrap())` with `session` still `None`: the run panics
instead of connecting to the interactively chosen session. -/
theorem c2_no_arg_run_panics (env argv : List String) (entries : List DirEntry)
    (w : World) (inputs : List String) (h : argv[1]? = none) :
    mainResult env argv (.ok entries) w inputs = .panicked := by
  simp [mainResult, get_sessions, main_after_sessions, connect_step, h]

/-- Witness for `c2_no_arg_run_panics` at a concrete input. -/
theorem c2_no_arg_run_panics_witness :
    mainResult [] ["zellij-chooser"] (.ok []) w0 [] = .panicked :=
  c2_no_arg_run_panics [] ["zellij-chooser"] [] w0 [] rfl

/-- C3: a probe whose connection is refused classifies the endpoint as stale
(not live, `false`), deletes the socket file (deletion-result discarded), and
a second probe of the same path — the file now gone — returns not-live again
without error and without further change to the world. -/
theorem c3_stale_probe_deletes_and_is_idempotent (w : World) (p : String)
    (hin : has_file w.files p = true) (hb : w.behavior p = .refused) :
    (assert_socket w p).1 = false ∧
    has_file (assert_socket w p).2.files p = false ∧
    assert_socket (assert_socket w p).2 p = (false, (assert_socket w p).2) := by
  have hw : assert_socket w p = (false, ⟨remove_file w.files p, w.behavior⟩) := by
    rw [assert_socket, if_pos hin, hb]
  refine ⟨by rw [hw], ?_, ?_⟩
  · rw [hw]
    exact has_file_remove_self w.files p
  · have habsent : has_file (assert_socket w p).2.files p = false := by
      rw [hw]
      exact has_file_remove_self w.files p
    rw [assert_socket, if_neg (by rw [habsent]; exact Bool.false_ne_true)]

/-- Witness for `c3_stale_probe_deletes_and_is_idempotent`: one stale socket
named `work`. -/
theorem c3_stale_probe_witness :
    (assert_socket wStale "work").1 = false ∧
    has_file (assert_socket wStale "work").2.files "work" = false ∧
    assert_socket (assert_socket wStale "work").2 "work"
      = (false, (assert_socket wStale "work").2) :=
  c3_stale_probe_deletes_and_is_idempotent wStale "work" (by decide) rfl

/-- C4: resolving sessions over a successfully enumerated registry returns
exactly the names of the directory entries that are socket-type files and
whose probe finds the socket present and answering with the `Connected`
acknowledgement; every other entry is excluded.  The directory listing has
pairwise-distinct names, as filesystem listings do. -/
theorem c4_sessions_are_exactly_live_sockets (entries : List DirEntry)
    (w : World) (h : (entries.map DirEntry.name).Nodup) :
    (get_sessions (.ok entries) w).1 =
      .ok ((entries.filter
        (fun e => e.isSocket && liveIn w e.name)).map DirEntry.name) := by
  simp [get_sessions, scan_files_fst entries w h]

/-- Witness for `c4_sessions_are_exactly_live_sockets`: a one-entry listing
whose socket is live. -/
theorem c4_sessions_witness :
    (([⟨"work", true⟩] : List DirEntry).map DirEntry.name).Nodup ∧
    (get_sessions (.ok [⟨"work", true⟩]) w0).1 =
      .ok ((([⟨"work", true⟩] : List DirEntry).filter
        (fun e => e.isSocket && liveIn w0 e.name)).map DirEntry.name) :=
  ⟨by decide, c4_sessions_are_exactly_live_sockets [⟨"work", true⟩] w0 (by decide)⟩

/-- C5: when the registry directory does not exist (`read_dir` fails with
`NotFound`), `get_sessions` returns `Ok` with the empty session list, not an
error, and leaves the world untouched. -/
theorem c5_absent_registry_is_empty_not_error (w : World) :
    get_sessions (.err .notFound) w = (.ok [], w) := by
  simp [get_sessions]

/-- C6: a connection failure other than connection-refused — the path is
missing (`NotFound`) or the connect fails with a generic error — classifies
the endpoint as not live and leaves the world (in particular the socket file)
completely unchanged. -/
theorem c6_other_failures_do_not_delete (w : World) (p : String)
    (h : has_file w.files p = false ∨ w.behavior p = .otherErr) :
    assert_socket w p = (false, w) := by
  rcases h with h | h
  · rw [assert_socket, if_neg (by rw [h]; exact Bool.false_ne_true)]
  · rw [assert_socket, h]
    by_cases hf : has_file w.files p = true
    · rw [if_pos hf]
    · rw [if_neg hf]

/-- Witness for `c6_other_failures_do_not_delete`: probing `work` in a world
where its connection fails with a generic error. -/
theorem c6_other_failures_witness :
    assert_socket wErr "work" = (false, wErr) :=
  c6_other_failures_do_not_delete wErr "work" (Or.inr rfl)

/-- C7 counterexample: the claim that every session name used for launch is
non-empty and whitespace-free, enforced before use, is false for the
positional argument: passing `bad name` (which contains a space) with no
matching live session flows through `try_joining` failure and the no-op
`spawn` straight into `connect("bad name")` with no validation. -/
theorem c7_counterexample_whitespace_name_launched :
    mainResult [] ["zellij-chooser", "bad name"] (.ok []) w0 []
      = .connect "bad name" ∧
    "bad name".data.any Char.isWhitespace = true := by
  exact ⟨rfl, by decide⟩

/-- C7 (amended): only the interactive selector enforces the invariant — any
name its read loop accepts is non-empty and contains no whitespace; a
positional session name reaches the launch step without this validation. -/
theorem c7_selector_enforces_name_invariant (inputs : List String) (s : String)
    (h : read_name_loop inputs = some s) :
    s.isEmpty = false ∧ s.data.any Char.isWhitespace = false := by
  induction inputs with
  | nil => exact absurd h (by simp [read_name_loop])
  | cons feed rest ih =>
    rw [read_name_loop] at h
    by_cases h1 : feed.isEmpty = true
    · rw [if_pos h1] at h
      exact ih h
    · rw [if_neg h1] at h
      by_cases h2 : feed.data.any Char.isWhitespace = true
      · rw [if_pos h2] at h
        exact ih h
      · rw [if_neg h2] at h
        cases h
        exact ⟨Bool.eq_false_iff.mpr h1, Bool.eq_false_iff.mpr h2⟩

/-- Witness for `c7_selector_enforces_name_invariant`: the loop accepts
`work` at once. -/
theorem c7_selector_invariant_witness :
    ("work" : String).isEmpty = false ∧
    ("work" : String).data.any Char.isWhitespace = false :=
  c7_selector_enforces_name_invariant ["work"] "work" (by decide)

/-- C8: the selector prompt prints `stringify!(id)` — the literal string
`id` — in place of each entry index, so the displayed lines do not carry the
actual positions the spec intends; on the listing `["work"]` the code prints
`(id) :: work` where the spec-intended line is `(0) :: work`. -/
theorem c8_display_prints_placeholder_not_index :
    display_lines ["work"] = ["(id) :: work"] ∧
    display_lines_spec ["work"] = ["(0) :: work"] ∧
    display_lines ["work"] ≠ display_lines_spec ["work"] := by
  refine ⟨by decide, by decide, by decide⟩

/-- C9: the interactive read loop rejects, by moving on to the next line,
every line that is empty or contains whitespace, and returns verbatim the
first line that is non-empty and whitespace-free — i.e. it computes
`find?` of the validation predicate over the input lines. -/
theorem c9_loop_returns_first_valid_line (inputs : List String) :
    read_name_loop inputs = inputs.find? valid_name := by
  induction inputs with
  | nil => rfl
  | cons feed rest ih =>
    rw [read_name_loop]
    by_cases h1 : feed.isEmpty = true
    · have hv : valid_name feed = false := by
        simp [valid_name, h1]
      rw [if_pos h1, List.find?_cons_of_neg _ (by rw [hv]; exact Bool.false_ne_true), ih]
    · by_cases h2 : feed.data.any Char.isWhitespace = true
      · have hv : valid_name feed = false := by
          simp [valid_name, h2]
        rw [if_neg h1, if_pos h2,
          List.find?_cons_of_neg _ (by rw [hv]; exact Bool.false_ne_true), ih]
      · have hv : valid_name feed = true := by
          simp [valid_name, Bool.eq_false_iff.mpr h1, Bool.eq_false_iff.mpr h2]
        rw [if_neg h1, if_neg h2, List.find?_cons_of_pos _ hv]

/-- C10: when enumerating the registry directory fails for any reason other
than absence, the run is fatal: `main` prints the unavailability message and
terminates with exit code `-1`, a non-zero status, rather than proceeding
with an empty session list. -/
theorem c10_enumeration_failure_is_fatal (env argv : List String) (k : ErrKind)
    (w : World) (inputs : List String) (h : k ≠ .notFound) :
    mainResult env argv (.err k) w inputs =
      .fatalExit "Looks like zellij isn't available. Exiting." (-1) ∧
    (-1 : Int) ≠ 0 := by
  refine ⟨?_, by decide⟩
  simp [mainResult, get_sessions, exit_zellij_not_found, h]

/-- Witness for `c10_enumeration_failure_is_fatal`: a permission error while
listing the registry. -/
theorem c10_enumeration_failure_witness :
    mainResult [] ["zellij-chooser"] (.err .permissionDenied) w0 [] =
      .fatalExit "Looks like zellij isn't available. Exiting." (-1) ∧
    (-1 : Int) ≠ 0 :=
  c10_enumeration_failure_is_fatal [] ["zellij-chooser"] .permissionDenied w0 []
    (by decide)

end ZellijChooser
